import Mathlib

/-!
Verification of the Sports-Odds MCP server (`src/http-mcp-server.js`).

Shallow embedding: provider payloads become inductive data, the two tool
handlers become pure functions parameterized by oracles for the provider's
HTTP responses (so that the set of per-event odds calls actually issued is
observable as data), and the session-routing layer of `mcpPostHandler`
becomes a state machine over the `transports` table.  Timestamps
(`new Date(...).toLocaleString()`) are threaded as explicit arguments.
-/

namespace SportsOddsMcp

/-- JS `String.prototype.toUpperCase` on the ASCII strings this server
handles (sport keys, market keys): upper-case every character. -/
def toUpperStr (s : String) : String := String.mk (s.data.map Char.toUpper)

/-- JS `String.prototype.toLowerCase` on the ASCII team names this server
compares: lower-case every character. -/
def toLowerStr (s : String) : String := String.mk (s.data.map Char.toLower)

/-- JS `key.replace(/_/g, ' ')`: a single-character global replacement, so a
character map. -/
def underscoresToSpaces (s : String) : String :=
  String.mk (s.data.map (fun c => if c == '_' then ' ' else c))

/-- Whether `pat` is a prefix of the character list. -/
def isPrefixOfList : List Char → List Char → Bool
  | [], _ => true
  | _ :: _, [] => false
  | p :: ps, c :: cs => p == c && isPrefixOfList ps cs

/-- Whether `pat` occurs as a contiguous sublist: a prefix at some position. -/
def containsSub (pat : List Char) : List Char → Bool
  | [] => isPrefixOfList pat []
  | c :: cs => isPrefixOfList pat (c :: cs) || containsSub pat cs

/-- JS `String.prototype.includes`: `pat` occurs as a substring of `s`
(the empty pattern always matches). -/
def containsSubstr (s pat : String) : Bool :=
  containsSub pat.data s.data

/-! ## Provider data model (payload shapes consumed by the two tools) -/

/-- One priced side of a market (`outcome` objects of the provider JSON).
`description` is the player name on prop outcomes; `point` is the optional
spread/total/prop line.  Numeric fields are modelled as integers; no claim
computes with their values. -/
structure Outcome where
  name : String
  description : Option String
  price : Int
  point : Option Int
deriving DecidableEq, Repr

structure Market where
  key : String
  outcomes : List Outcome
deriving DecidableEq, Repr

structure Bookmaker where
  key : String
  title : String
  markets : List Market
deriving DecidableEq, Repr

/-- A game of the sport-wide odds payload (fields read by `fetch_sports_odds`). -/
structure Game where
  home_team : String
  away_team : String
  commence_time : String
  bookmakers : List Bookmaker
deriving DecidableEq, Repr

/-- An entry of the `/events` payload (fields read by `fetch_player_props`). -/
structure Event where
  id : String
  home_team : String
  away_team : String
  commence_time : String
deriving DecidableEq, Repr

/-- The per-event odds payload (`propsData`); only `bookmakers` is read. -/
structure PropsData where
  bookmakers : List Bookmaker
deriving DecidableEq, Repr

/-- Result of a top-level provider `fetch`: either the parsed body, or a
non-2xx response (`response.ok` false) with its status and status text. -/
inductive FetchResult (α : Type) where
  | ok (data : α)
  | httpError (status : Nat) (statusText : String)
deriving DecidableEq, Repr

/-- Result of one per-event odds `fetch` inside the props loop: parsed body,
non-2xx status, or a thrown error (network/JSON failure) with its message. -/
inductive PropsFetchOutcome where
  | ok (data : PropsData)
  | httpError (status : Nat)
  | thrown (msg : String)
deriving DecidableEq, Repr

/-! ## `fetch_sports_odds`: rendering and tool handler (lines 60-129) -/

/-- JS truthiness guard `outcome.point ? ... : ''` / `if (outcome.point)`:
the point is appended only when present and nonzero (0 is falsy). -/
def pointSuffix (point : Option Int) : String :=
  match point with
  | some p => if p == 0 then "" else " " ++ toString p
  | none => ""

/-- Renders `${outcome.name} (${outcome.price})` plus the point suffix (lines 108-109). -/
def renderOddsOutcome (o : Outcome) : String :=
  o.name ++ " (" ++ toString o.price ++ ")" ++ pointSuffix o.point

/-- Renders the market line: indented key, colon, comma-joined outcomes (lines 104-112). -/
def renderOddsMarket (m : Market) : String :=
  "     " ++ m.key ++ ": " ++ String.intercalate ", " (m.outcomes.map renderOddsOutcome) ++ "\n"

/-- Renders the bookmaker title line plus its markets (lines 102-113). -/
def renderOddsBookmaker (b : Bookmaker) : String :=
  "   " ++ b.title ++ ":\n" ++ String.join (b.markets.map renderOddsMarket)

/-- One numbered game block (lines 97-116).  Note the guard
`if (game.bookmakers && game.bookmakers.length > 0)` has no `else` branch:
a game without bookmakers renders only its two header lines. -/
def renderOddsGame (fmtDate : String → String) (index : Nat) (g : Game) : String :=
  toString (index + 1) ++ ". " ++ g.away_team ++ " @ " ++ g.home_team ++ "\n"
    ++ "   Starts: " ++ fmtDate g.commence_time ++ "\n"
    ++ (if g.bookmakers.isEmpty then ""
        else String.join (g.bookmakers.map renderOddsBookmaker))
    ++ "\n"

/-- The full odds report (lines 87-117); `now` stands for
`new Date().toLocaleString()` and `fmtDate` for per-game date formatting. -/
def renderOddsReport (fmtDate : String → String) (now sport : String)
    (markets : List String) (regions : String) (games : List Game) : String :=
  "Sports Odds Report - " ++ toUpperStr sport ++ "\n"
    ++ "Generated: " ++ now ++ "\n"
    ++ "Markets: " ++ String.intercalate ", " markets ++ "\n"
    ++ "Regions: " ++ regions ++ "\n\n"
    ++ (if games.isEmpty then "No games found for this sport.\n"
        else "Found " ++ toString games.length ++ " games:\n\n"
          ++ String.join (games.enum.map (fun p => renderOddsGame fmtDate p.1 p.2)))

/-- The `fetch_sports_odds` handler, parameterized by the provider response.
A non-2xx response throws `API call failed: ${status} ${statusText}`
(line 78), rethrown by the catch as
`Failed to execute fetch_sports_odds: ${message}` (line 127). -/
def fetch_sports_odds (resp : FetchResult (List Game)) (fmtDate : String → String)
    (now sport : String) (markets : List String) (regions : String) :
    Except String String :=
  match resp with
  | FetchResult.httpError status statusText =>
      Except.error ("Failed to execute fetch_sports_odds: API call failed: "
        ++ toString status ++ " " ++ statusText)
  | FetchResult.ok data =>
      Except.ok (renderOddsReport fmtDate now sport markets regions data)

/-! ## `fetch_player_props`: pipeline (lines 140-254) -/

/-- The handler's own fallback for an absent `markets` argument
(lines 141-144): sport-keyed defaults.  At runtime this fallback is dead
code — the tool's input schema (line 137) carries a zod default that the
SDK's argument parsing applies before the handler runs, so the handler
never receives an absent `markets`; see `parseMarketsArg` and
`invocationMarkets` for the full invocation boundary. -/
def resolveMarkets (sport : String) (markets : Option (List String)) : List String :=
  match markets with
  | some m => m
  | none =>
      if sport == "basketball_wnba" then
        ["player_points", "player_rebounds", "player_assists"]
      else
        ["batter_home_runs", "pitcher_strikeouts"]

/-- The zod schema default for `markets` declared at line 137:
`.optional().default(["batter_home_runs", "pitcher_strikeouts"])` — a single
list, not keyed by sport. -/
def schemaDefaultMarkets : List String :=
  ["batter_home_runs", "pitcher_strikeouts"]

/-- The SDK's argument parsing applied to the caller's `markets` argument:
zod fills an omitted argument with the schema default of line 137, so the
value delivered to the handler is never absent. -/
def parseMarketsArg (marketsArg : Option (List String)) : Option (List String) :=
  some (marketsArg.getD schemaDefaultMarkets)

/-- The markets actually used by a `fetch_player_props` invocation: schema
parsing first (line 137), then the handler's own fallback (lines 141-144). -/
def invocationMarkets (sport : String) (marketsArg : Option (List String)) :
    List String :=
  resolveMarkets sport (parseMarketsArg marketsArg)

/-- JS `event.home_team.toLowerCase().includes(team_filter.toLowerCase()) || ...`
(lines 168-171). -/
def eventMatches (tf : String) (e : Event) : Bool :=
  containsSubstr (toLowerStr e.home_team) (toLowerStr tf)
    || containsSubstr (toLowerStr e.away_team) (toLowerStr tf)

/-- Step 2 of the pipeline: the retained events (lines 166-173). -/
def filterEvents (team_filter : Option String) (events : List Event) : List Event :=
  match team_filter with
  | some tf => events.filter (eventMatches tf)
  | none => events

/-- Report header for the props tool (lines 176-180). -/
def propsHeader (now sport : String) (markets : List String)
    (team_filter : Option String) : String :=
  "Player Props Report - " ++ toUpperStr sport ++ "\n"
    ++ "Generated: " ++ now ++ "\n"
    ++ "Markets: " ++ String.intercalate ", " markets ++ "\n"
    ++ (match team_filter with
        | some tf => "Team Filter: " ++ tf ++ "\n"
        | none => "")
    ++ "\n"

/-- The empty-result line, distinct wording with/without a filter (lines 183-185). -/
def noGamesLine (team_filter : Option String) : String :=
  match team_filter with
  | some tf => "No games found for team \"" ++ tf ++ "\" today.\n"
  | none => "No games found for this sport today.\n"

/-- One prop outcome line
`  ${playerName}: ${betType}${point} (${odds})` (lines 220-225), where
`playerName` is `outcome.description || outcome.name` (an empty string is
falsy) and the point uses the same truthiness guard as the odds tool. -/
def renderPropsOutcome (o : Outcome) : String :=
  "  " ++ (match o.description with
           | some d => if d == "" then o.name else d
           | none => o.name)
    ++ ": " ++ o.name ++ pointSuffix o.point
    ++ " (" ++ toString o.price ++ ")\n"

/-- One props market section, titled by the key with underscores replaced by
spaces and upper-cased (lines 218-227). -/
def renderPropsMarket (m : Market) : String :=
  "\n" ++ toUpperStr (underscoresToSpaces m.key) ++ ":\n"
    ++ String.join (m.outcomes.map renderPropsOutcome)

/-- The successful per-event block (lines 212-234): header, start time, then
the DraftKings markets, with explicit no-data lines when the payload has no
bookmakers or no (non-empty) DraftKings entry. -/
def renderPropsGameBlock (fmtDate : String → String) (e : Event) (d : PropsData) : String :=
  "--- " ++ e.away_team ++ " @ " ++ e.home_team ++ " ---\n"
    ++ "Starts: " ++ fmtDate e.commence_time ++ "\n"
    ++ (if d.bookmakers.isEmpty then "No bookmaker data available for this game\n"
        else
          match d.bookmakers.find? (fun b => b.key == "draftkings") with
          | some dk =>
              if dk.markets.isEmpty then "No DraftKings props available for this game\n"
              else String.join (dk.markets.map renderPropsMarket)
          | none => "No DraftKings props available for this game\n")
    ++ "\n"

/-- The block contributed by one retained event, by the outcome of its odds
fetch: a non-2xx or thrown failure becomes an inline error block for that
game only (lines 195-241). -/
def renderEventBlock (fmtDate : String → String) (e : Event)
    (outcome : PropsFetchOutcome) : String :=
  match outcome with
  | PropsFetchOutcome.httpError status =>
      "--- " ++ e.away_team ++ " @ " ++ e.home_team ++ " ---\n"
        ++ "Error: Unable to fetch props (" ++ toString status ++ ")\n\n"
  | PropsFetchOutcome.thrown msg =>
      "--- " ++ e.away_team ++ " @ " ++ e.home_team ++ " ---\n"
        ++ "Error: " ++ msg ++ "\n\n"
  | PropsFetchOutcome.ok d => renderPropsGameBlock fmtDate e d

/-- The `fetch_player_props` handler (lines 140-254), parameterized by the
events response and a per-event-id oracle for the odds fetches.  Returns the
tool result together with the list of event ids for which a per-event odds
call was issued (the loop over `gamesToProcess`, lines 195-241). -/
def fetch_player_props (eventsResp : FetchResult (List Event))
    (propsResp : String → PropsFetchOutcome) (fmtDate : String → String)
    (now sport : String) (marketsArg : Option (List String))
    (team_filter : Option String) : Except String String × List String :=
  let markets := resolveMarkets sport marketsArg
  match eventsResp with
  | FetchResult.httpError status _ =>
      (Except.error ("Failed to fetch player props: Events API call failed: "
        ++ toString status), [])
  | FetchResult.ok events =>
      let filteredEvents := filterEvents team_filter events
      let header := propsHeader now sport markets team_filter
      if filteredEvents.isEmpty then
        (Except.ok (header ++ noGamesLine team_filter), [])
      else
        let gamesToProcess := filteredEvents.take 3
        (Except.ok (header
            ++ "Processing " ++ toString gamesToProcess.length ++ " games:\n\n"
            ++ String.join (gamesToProcess.map
                 (fun e => renderEventBlock fmtDate e (propsResp e.id)))),
          gamesToProcess.map Event.id)

/-- Returns `true` exactly for a tool call that returned a successful text report. -/
def isOkResult (r : Except String String) : Bool :=
  match r with
  | Except.ok _ => true
  | Except.error _ => false

/-! ## Session routing: `mcpPostHandler` and the `transports` table
(lines 14, 260-311)

Transport instances are identified by their creation index; the `transports`
JS object becomes an association list from session id to that index. -/

/-- JS object assignment `transports[k] = v`: overwrite the entry if the key
is present, otherwise append a new one. -/
def setEntry (tbl : List (String × Nat)) (k : String) (v : Nat) :
    List (String × Nat) :=
  if tbl.any (fun p => p.1 == k) then
    tbl.map (fun p => if p.1 == k then (k, v) else p)
  else
    tbl ++ [(k, v)]

/-- JS object lookup `transports[sessionId]` (`none` for a missing key). -/
def lookupTbl (tbl : List (String × Nat)) (k : String) : Option Nat :=
  (tbl.find? (fun p => p.1 == k)).map Prod.snd

/-- The server's mutable session state: the `transports` table and the
creation index of the next transport. -/
structure ServerState where
  transports : List (String × Nat)
  nextTid : Nat
deriving DecidableEq, Repr

/-- What `mcpPostHandler` does with a request (the SDK's
`transport.handleRequest` is opaque): dispatch to a transport, or reject.
The code has no session-not-found branch; the constructor exists so the
spec's claimed behaviour is statable. -/
inductive PostOutcome where
  | dispatched (tid : Nat)
  | sessionNotFound
deriving DecidableEq, Repr

/-- The creation branch of `mcpPostHandler` (lines 268-291): a new transport
is registered under `sessionId || randomUUID()` and the request is
dispatched to it. -/
def mcpCreate (st : ServerState) (sessionId : Option String)
    (freshUUID : String) : ServerState × PostOutcome :=
  let newSessionId := sessionId.getD freshUUID
  ({ transports := setEntry st.transports newSessionId st.nextTid,
     nextTid := st.nextTid + 1 },
   PostOutcome.dispatched st.nextTid)

/-- The handler `mcpPostHandler` (lines 260-311): look the session id up in the table;
create a new transport when there is no existing one or the body is an
initialization message, otherwise dispatch to the existing transport. -/
def mcpPost (st : ServerState) (sessionId : Option String) (isInit : Bool)
    (freshUUID : String) : ServerState × PostOutcome :=
  match (match sessionId with
         | some sid => lookupTbl st.transports sid
         | none => none), isInit with
  | some tid, false => (st, PostOutcome.dispatched tid)
  | some _, true => mcpCreate st sessionId freshUUID
  | none, _ => mcpCreate st sessionId freshUUID

/-- The states the session table can reach from server start (the table
starts empty, and only `mcpPostHandler` inserts). -/
inductive Reachable : ServerState → Prop where
  | init : Reachable { transports := [], nextTid := 0 }
  | step {st : ServerState} (sessionId : Option String) (isInit : Bool)
      (freshUUID : String) : Reachable st →
      Reachable (mcpPost st sessionId isInit freshUUID).1

/-! ## Startup and configuration (lines 11, 69, 152, 336-346) -/

/-- The provider API key as used by both tool handlers: a hardcoded literal
(lines 69 and 152), not read from the environment. -/
def oddsApiKey : String := "e2589acbc9f5ed09664e15a3fd90682d"

/-- The externally supplied configuration the process reads. -/
structure ProcessEnv where
  oddsApiKeyVar : Option String
  portVar : Option Nat
deriving DecidableEq, Repr

/-- JS `process.env.PORT || 10000` (line 11). -/
def serverPort (env : ProcessEnv) : Nat := env.portVar.getD 10000

/-- How startup can end; `fatal` exists so the spec's claimed startup-fatal
behaviour is statable. -/
inductive StartupOutcome where
  | listening (port : Nat)
  | fatal (msg : String)
deriving DecidableEq, Repr

/-- Startup (lines 336-346): `app.listen` is called unconditionally; no
configuration is validated first. -/
def startServer (env : ProcessEnv) : StartupOutcome :=
  StartupOutcome.listening (serverPort env)

/-! ## Concrete fixtures used to evaluate the model -/

def evOK : Event :=
  { id := "evok", home_team := "H1", away_team := "A1", commence_time := "T1" }

def evBAD : Event :=
  { id := "evbad", home_team := "H2", away_team := "A2", commence_time := "T2" }

def judgeOutcome : Outcome :=
  { name := "Over", description := some "Aaron Judge", price := 2, point := some 1 }

def dkBookmaker : Bookmaker :=
  { key := "draftkings", title := "DraftKings",
    markets := [{ key := "batter_home_runs", outcomes := [judgeOutcome] }] }

def dkData : PropsData := { bookmakers := [dkBookmaker] }

/-- A provider oracle answering real data for `evOK` and 404 otherwise. -/
def mixedOracle (i : String) : PropsFetchOutcome :=
  if i == "evok" then PropsFetchOutcome.ok dkData
  else PropsFetchOutcome.httpError 404

/-! ## Helper lemmas on the session table -/

theorem keys_overwrite_map (tbl : List (String × Nat)) (k : String) (v : Nat) :
    (tbl.map (fun p => if p.1 == k then (k, v) else p)).map Prod.fst
      = tbl.map Prod.fst := by
  induction tbl with
  | nil => rfl
  | cons p t ih =>
    simp only [List.map_cons]
    rw [ih]
    by_cases hp : (p.1 == k) = true
    · have hk : p.1 = k := eq_of_beq hp
      simp [hp, hk]
    · simp [hp]

theorem nodup_setEntry (tbl : List (String × Nat)) (k : String) (v : Nat)
    (h : (tbl.map Prod.fst).Nodup) :
    ((setEntry tbl k v).map Prod.fst).Nodup := by
  unfold setEntry
  by_cases ha : tbl.any (fun p => p.1 == k) = true
  · rw [if_pos ha, keys_overwrite_map]; exact h
  · rw [if_neg ha]
    simp only [List.map_append, List.map_cons, List.map_nil]
    refine List.Nodup.append h (List.nodup_singleton k) ?_
    intro a hmem hk
    rw [List.mem_singleton] at hk
    subst hk
    rw [List.mem_map] at hmem
    obtain ⟨p, hp, hfst⟩ := hmem
    exact ha (List.any_eq_true.2 ⟨p, hp, beq_iff_eq.2 hfst⟩)

theorem reachable_nodup {st : ServerState} (h : Reachable st) :
    (st.transports.map Prod.fst).Nodup := by
  induction h with
  | init => simp
  | step sessionId isInit freshUUID _ ih =>
    unfold mcpPost
    split
    · exact ih
    · exact nodup_setEntry _ _ _ ih
    · exact nodup_setEntry _ _ _ ih

theorem lookupTbl_overwrite (tbl : List (String × Nat)) (k : String) (v : Nat)
    (ha : tbl.any (fun p => p.1 == k) = true) :
    lookupTbl (tbl.map (fun p => if p.1 == k then (k, v) else p)) k = some v := by
  induction tbl with
  | nil => simp at ha
  | cons p t ih =>
    by_cases hp : (p.1 == k) = true
    · simp [lookupTbl, hp, List.find?]
    · have ha' : t.any (fun p => p.1 == k) = true := by
        simpa [List.any_cons, hp] using ha
      simpa [lookupTbl, hp, List.find?] using ih ha'

theorem lookupTbl_append_new (tbl : List (String × Nat)) (k : String) (v : Nat)
    (ha : ¬ tbl.any (fun p => p.1 == k) = true) :
    lookupTbl (tbl ++ [(k, v)]) k = some v := by
  induction tbl with
  | nil => simp [lookupTbl, List.find?]
  | cons p t ih =>
    have hp : ¬ (p.1 == k) = true := by
      intro hc; exact ha (by simp [List.any_cons, hc])
    have ha' : ¬ t.any (fun p => p.1 == k) = true := by
      intro hc; exact ha (by simp [List.any_cons, hc])
    simpa [lookupTbl, hp, List.find?] using ih ha'

theorem lookupTbl_setEntry_self (tbl : List (String × Nat)) (k : String) (v : Nat) :
    lookupTbl (setEntry tbl k v) k = some v := by
  unfold setEntry
  by_cases ha : tbl.any (fun p => p.1 == k) = true
  · rw [if_pos ha]; exact lookupTbl_overwrite tbl k v ha
  · rw [if_neg ha]; exact lookupTbl_append_new tbl k v ha

/-! ## Claims about session routing -/

/-- C1 counterexample: a POST carrying the session identifier "s" while the
session table is empty and whose body is not an initialization message is
*not* rejected with a session-not-found error; the handler registers a brand
new transport under "s" and dispatches the request to it. -/
theorem unknown_session_not_rejected :
    (mcpPost { transports := [], nextTid := 0 } (some "s") false "u").2
        ≠ PostOutcome.sessionNotFound
      ∧ (mcpPost { transports := [], nextTid := 0 } (some "s") false "u").1.transports
        = [("s", 0)] := by
  exact ⟨by decide, rfl⟩

/-- C1 (amended): a POST request bearing a session identifier that is absent
from the session table, with a non-initializing body, is not rejected:
the handler creates a fresh transport, registers it in the table under that
identifier, and dispatches the request to it. -/
theorem unknown_session_creates_transport (st : ServerState) (sid u : String)
    (h : lookupTbl st.transports sid = none) :
    mcpPost st (some sid) false u
        = ({ transports := setEntry st.transports sid st.nextTid,
             nextTid := st.nextTid + 1 },
           PostOutcome.dispatched st.nextTid)
      ∧ lookupTbl (mcpPost st (some sid) false u).1.transports sid
          = some st.nextTid := by
  have hmain : mcpPost st (some sid) false u
      = ({ transports := setEntry st.transports sid st.nextTid,
           nextTid := st.nextTid + 1 },
         PostOutcome.dispatched st.nextTid) := by
    simp [mcpPost, mcpCreate, h]
  refine ⟨hmain, ?_⟩
  rw [hmain]
  exact lookupTbl_setEntry_self _ _ _

/-- C1 witness: the amended behaviour at the empty table. -/
theorem unknown_session_creates_transport_witness :
    lookupTbl ([] : List (String × Nat)) "s" = none
      ∧ (mcpPost { transports := [], nextTid := 0 } (some "s") false "u"
            = ({ transports := setEntry [] "s" 0, nextTid := 0 + 1 },
               PostOutcome.dispatched 0)
          ∧ lookupTbl (mcpPost { transports := [], nextTid := 0 }
                (some "s") false "u").1.transports "s" = some 0) :=
  ⟨rfl, unknown_session_creates_transport { transports := [], nextTid := 0 } "s" "u" rfl⟩

/-- C2 counterexample: two POST requests bearing the same session identifier
"s" (both initialization messages) are dispatched to two distinct transport
instances: the second initialization provisions a fresh transport. -/
theorem reinit_creates_second_transport :
    (mcpPost { transports := [], nextTid := 0 } (some "s") true "u").2
        = PostOutcome.dispatched 0
      ∧ (mcpPost (mcpPost { transports := [], nextTid := 0 } (some "s") true "u").1
            (some "s") true "u2").2 = PostOutcome.dispatched 1
      ∧ PostOutcome.dispatched 0 ≠ PostOutcome.dispatched 1 :=
  ⟨rfl, rfl, by decide⟩

/-- C2 (amended): at every reachable state the session table holds at most
one transport per identifier (its keys are pairwise distinct), and a request
bearing a known identifier whose body is not an initialization message is
dispatched to exactly the transport the table maps the identifier to,
leaving the table unchanged.  (An initialization request instead always
provisions a fresh transport, replacing the table entry — see the
counterexample.) -/
theorem session_table_nodup_and_noninit_reuse {st : ServerState}
    (h : Reachable st) :
    (st.transports.map Prod.fst).Nodup
      ∧ ∀ sid tid u, lookupTbl st.transports sid = some tid →
          mcpPost st (some sid) false u = (st, PostOutcome.dispatched tid) := by
  refine ⟨reachable_nodup h, ?_⟩
  intro sid tid u hl
  simp [mcpPost, hl]

/-- C2 witness: the amended invariant at the reachable one-session state. -/
theorem session_table_nodup_and_noninit_reuse_witness :
    Reachable { transports := [("s", 0)], nextTid := 1 }
      ∧ (((({ transports := [("s", 0)], nextTid := 1 } : ServerState)).transports.map
            Prod.fst).Nodup
          ∧ ∀ sid tid u,
              lookupTbl ({ transports := [("s", 0)], nextTid := 1 } :
                ServerState).transports sid = some tid →
              mcpPost { transports := [("s", 0)], nextTid := 1 } (some sid) false u
                = ({ transports := [("s", 0)], nextTid := 1 },
                   PostOutcome.dispatched tid)) := by
  have hr : Reachable { transports := [("s", 0)], nextTid := 1 } :=
    Reachable.step (some "s") true "u" Reachable.init
  exact ⟨hr, session_table_nodup_and_noninit_reuse hr⟩

/-! ## Claims about the two tool handlers -/

/-- C3: the program evaluated at the claim's failing input — an invocation
that omits `markets`.  The schema default of line 137 is applied by the
SDK's argument parsing before the handler runs, so a `basketball_wnba`
invocation omitting `markets` actually uses
`["batter_home_runs", "pitcher_strikeouts"]`, not the sport-keyed player
markets the claim states; the handler's sport-keyed fallback
(lines 141-144) is dead code, because the parsed argument is never absent
(for every sport, the handler resolves an omitted argument to the single
schema default). -/
theorem wnba_omitted_markets_use_schema_default :
    invocationMarkets "basketball_wnba" none
        = ["batter_home_runs", "pitcher_strikeouts"]
      ∧ invocationMarkets "baseball_mlb" none
        = ["batter_home_runs", "pitcher_strikeouts"]
      ∧ (invocationMarkets "basketball_wnba" none
          == ["player_points", "player_rebounds", "player_assists"]) = false
      ∧ (∀ marketsArg : Option (List String),
          (parseMarketsArg marketsArg).isSome = true)
      ∧ (∀ sport : String,
          resolveMarkets sport (parseMarketsArg none) = schemaDefaultMarkets) :=
  ⟨rfl, rfl, by decide, fun _ => rfl, fun _ => rfl⟩

/-- C4 counterexample: a game with no bookmakers, rendered by the odds tool,
produces a report with no "no data available"-style line at all — the
bookmaker section is omitted silently. -/
theorem odds_empty_bookmakers_silently_omitted :
    renderOddsReport (fun s => s) "now" "baseball_mlb" ["h2h"] "us"
        [{ home_team := "H", away_team := "A", commence_time := "T",
           bookmakers := [] }]
      = "Sports Odds Report - BASEBALL_MLB\nGenerated: now\nMarkets: h2h\nRegions: us\n\nFound 1 games:\n\n1. A @ H\n   Starts: T\n\n"
      ∧ containsSubstr
          (renderOddsReport (fun s => s) "now" "baseball_mlb" ["h2h"] "us"
            [{ home_team := "H", away_team := "A", commence_time := "T",
               bookmakers := [] }]) "available" = false
      ∧ containsSubstr
          (renderOddsReport (fun s => s) "now" "baseball_mlb" ["h2h"] "us"
            [{ home_team := "H", away_team := "A", commence_time := "T",
               bookmakers := [] }]) "No data" = false :=
  ⟨rfl, by decide, by decide⟩

/-- C4 (amended): only the props tool emits explicit "no data available"
lines: an event whose payload lacks bookmakers, or lacks a non-empty
DraftKings entry, renders an explicit no-data line; the odds tool instead
silently omits the bookmaker section of a game with no bookmakers, rendering
only the two header lines. -/
theorem no_data_lines_explicit_in_props_only (fmtDate : String → String) :
    (∀ (i : Nat) (home away ct : String),
        renderOddsGame fmtDate i
            { home_team := home, away_team := away, commence_time := ct,
              bookmakers := [] }
          = toString (i + 1) ++ ". " ++ away ++ " @ " ++ home ++ "\n"
              ++ "   Starts: " ++ fmtDate ct ++ "\n" ++ "\n")
      ∧ (∀ e : Event,
          renderEventBlock fmtDate e (PropsFetchOutcome.ok { bookmakers := [] })
            = "--- " ++ e.away_team ++ " @ " ++ e.home_team ++ " ---\n"
                ++ "Starts: " ++ fmtDate e.commence_time ++ "\n"
                ++ "No bookmaker data available for this game\n" ++ "\n")
      ∧ (∀ (e : Event) (bs : List Bookmaker), bs ≠ [] →
          bs.find? (fun b => b.key == "draftkings") = none →
          renderEventBlock fmtDate e (PropsFetchOutcome.ok { bookmakers := bs })
            = "--- " ++ e.away_team ++ " @ " ++ e.home_team ++ " ---\n"
                ++ "Starts: " ++ fmtDate e.commence_time ++ "\n"
                ++ "No DraftKings props available for this game\n" ++ "\n")
      ∧ (∀ (e : Event) (bs : List Bookmaker) (dk : Bookmaker),
          bs.find? (fun b => b.key == "draftkings") = some dk → dk.markets = [] →
          renderEventBlock fmtDate e (PropsFetchOutcome.ok { bookmakers := bs })
            = "--- " ++ e.away_team ++ " @ " ++ e.home_team ++ " ---\n"
                ++ "Starts: " ++ fmtDate e.commence_time ++ "\n"
                ++ "No DraftKings props available for this game\n" ++ "\n") := by
  refine ⟨?_, ?_, ?_, ?_⟩
  · intro i home away ct
    simp [renderOddsGame, String.append_empty]
  · intro e
    simp [renderEventBlock, renderPropsGameBlock]
  · intro e bs hne hfind
    have hb : bs.isEmpty = false := by simp [List.isEmpty_iff, hne]
    simp [renderEventBlock, renderPropsGameBlock, hb, hfind]
  · intro e bs dk hfind hdk
    have hne : bs ≠ [] := by
      intro hc; subst hc; simp [List.find?] at hfind
    have hb : bs.isEmpty = false := by simp [List.isEmpty_iff, hne]
    simp [renderEventBlock, renderPropsGameBlock, hb, hfind, hdk]

/-- C4 witness: the amended behaviour at concrete inputs, exercising the
silently-omitted odds section and both explicit props no-data lines. -/
theorem no_data_lines_explicit_in_props_only_witness :
    ([{ key := "fanduel", title := "FanDuel", markets := [] }] :
        List Bookmaker) ≠ []
      ∧ ([{ key := "fanduel", title := "FanDuel", markets := [] }] :
          List Bookmaker).find? (fun b => b.key == "draftkings") = none
      ∧ renderOddsGame (fun s => s) 0
          { home_team := "H", away_team := "A", commence_time := "T",
            bookmakers := [] }
          = toString (0 + 1) ++ ". " ++ "A" ++ " @ " ++ "H" ++ "\n"
              ++ "   Starts: " ++ "T" ++ "\n" ++ "\n"
      ∧ renderEventBlock (fun s => s)
          { id := "e1", home_team := "H1", away_team := "A1",
            commence_time := "T1" }
          (PropsFetchOutcome.ok { bookmakers := [] })
          = "--- " ++ "A1" ++ " @ " ++ "H1" ++ " ---\n"
              ++ "Starts: " ++ "T1" ++ "\n"
              ++ "No bookmaker data available for this game\n" ++ "\n"
      ∧ renderEventBlock (fun s => s)
          { id := "e1", home_team := "H1", away_team := "A1",
            commence_time := "T1" }
          (PropsFetchOutcome.ok
            { bookmakers := [{ key := "fanduel", title := "FanDuel",
                               markets := [] }] })
          = "--- " ++ "A1" ++ " @ " ++ "H1" ++ " ---\n"
              ++ "Starts: " ++ "T1" ++ "\n"
              ++ "No DraftKings props available for this game\n" ++ "\n" := by
  refine ⟨by decide, by decide, ?_, ?_, ?_⟩
  · exact (no_data_lines_explicit_in_props_only (fun s => s)).1 0 "H" "A" "T"
  · exact (no_data_lines_explicit_in_props_only (fun s => s)).2.1
      { id := "e1", home_team := "H1", away_team := "A1", commence_time := "T1" }
  · exact (no_data_lines_explicit_in_props_only (fun s => s)).2.2.1
      { id := "e1", home_team := "H1", away_team := "A1", commence_time := "T1" }
      [{ key := "fanduel", title := "FanDuel", markets := [] }]
      (by decide) (by decide)

/-- C5 counterexample: with one event whose per-event odds fetch answers 404
(a non-2xx provider response), the tool call that issued it does not
terminate with an error; it returns a successful text report (carrying an
inline error block). -/
theorem per_event_non2xx_still_success :
    (fetch_player_props
        (FetchResult.ok [{ id := "evid1", home_team := "H1", away_team := "A1",
                           commence_time := "T1" }])
        (fun _ => PropsFetchOutcome.httpError 404) (fun s => s) "now"
        "baseball_mlb" none none).2 = ["evid1"]
      ∧ (fun _ => PropsFetchOutcome.httpError 404) "evid1"
          = PropsFetchOutcome.httpError 404
      ∧ (fetch_player_props
          (FetchResult.ok [{ id := "evid1", home_team := "H1", away_team := "A1",
                             commence_time := "T1" }])
          (fun _ => PropsFetchOutcome.httpError 404) (fun s => s) "now"
          "baseball_mlb" none none).1
        = Except.ok
            "Player Props Report - BASEBALL_MLB\nGenerated: now\nMarkets: batter_home_runs, pitcher_strikeouts\n\nProcessing 1 games:\n\n--- A1 @ H1 ---\nError: Unable to fetch props (404)\n\n" := by
  refine ⟨by decide, rfl, rfl⟩

/-- C5 (amended): a non-2xx response on the sport-wide odds fetch or on the
event-list fetch terminates the tool call with a propagated error whose
message carries the HTTP status code; a non-2xx response on a per-event
odds fetch does not terminate the call — the event renders as an inline
error block carrying the status, and the tool call still returns a
successful report. -/
theorem non2xx_propagation_by_stage :
    (∀ (status : Nat) (statusText : String) (fmtDate : String → String)
        (now sport : String) (markets : List String) (regions : String),
        fetch_sports_odds (FetchResult.httpError status statusText) fmtDate now
            sport markets regions
          = Except.error ("Failed to execute fetch_sports_odds: API call failed: "
              ++ toString status ++ " " ++ statusText))
      ∧ (∀ (status : Nat) (statusText : String)
          (propsResp : String → PropsFetchOutcome) (fmtDate : String → String)
          (now sport : String) (m : Option (List String)) (tf : Option String),
          fetch_player_props (FetchResult.httpError status statusText) propsResp
              fmtDate now sport m tf
            = (Except.error ("Failed to fetch player props: Events API call failed: "
                ++ toString status), []))
      ∧ (∀ (status : Nat) (fmtDate : String → String) (e : Event),
          renderEventBlock fmtDate e (PropsFetchOutcome.httpError status)
            = "--- " ++ e.away_team ++ " @ " ++ e.home_team ++ " ---\n"
                ++ "Error: Unable to fetch props (" ++ toString status ++ ")\n\n")
      ∧ (∀ (events : List Event) (propsResp : String → PropsFetchOutcome)
          (fmtDate : String → String) (now sport : String)
          (m : Option (List String)) (tf : Option String),
          filterEvents tf events ≠ [] →
          isOkResult (fetch_player_props (FetchResult.ok events) propsResp fmtDate
              now sport m tf).1 = true) := by
  refine ⟨?_, ?_, ?_, ?_⟩
  · intro status statusText fmtDate now sport markets regions
    simp [fetch_sports_odds]
  · intro status statusText propsResp fmtDate now sport m tf
    simp [fetch_player_props]
  · intro status fmtDate e
    simp [renderEventBlock]
  · intro events propsResp fmtDate now sport m tf h
    have h2 : (filterEvents tf events).isEmpty = false := by
      simp [List.isEmpty_iff, h]
    simp [fetch_player_props, h2, isOkResult]

/-- C5 witness: the by-stage behaviour at concrete inputs (status 404 on
each stage, one retained event). -/
theorem non2xx_propagation_by_stage_witness :
    fetch_sports_odds (FetchResult.httpError 404 "Not Found") (fun s => s) "now"
        "baseball_mlb" ["h2h"] "us"
      = Except.error ("Failed to execute fetch_sports_odds: API call failed: "
          ++ toString 404 ++ " " ++ "Not Found")
      ∧ fetch_player_props (FetchResult.httpError 404 "Not Found")
            (fun _ => PropsFetchOutcome.httpError 404) (fun s => s) "now"
            "baseball_mlb" none none
          = (Except.error ("Failed to fetch player props: Events API call failed: "
              ++ toString 404), [])
      ∧ filterEvents none
          [{ id := "evid1", home_team := "H1", away_team := "A1",
             commence_time := "T1" }] ≠ []
      ∧ isOkResult (fetch_player_props
            (FetchResult.ok [{ id := "evid1", home_team := "H1", away_team := "A1",
                               commence_time := "T1" }])
            (fun _ => PropsFetchOutcome.httpError 404) (fun s => s) "now"
            "baseball_mlb" none none).1 = true := by
  refine ⟨?_, ?_, by decide, ?_⟩
  · exact non2xx_propagation_by_stage.1 404 "Not Found" (fun s => s) "now"
      "baseball_mlb" ["h2h"] "us"
  · exact non2xx_propagation_by_stage.2.1 404 "Not Found"
      (fun _ => PropsFetchOutcome.httpError 404) (fun s => s) "now" "baseball_mlb"
      none none
  · exact non2xx_propagation_by_stage.2.2.2
      [{ id := "evid1", home_team := "H1", away_team := "A1",
         commence_time := "T1" }]
      (fun _ => PropsFetchOutcome.httpError 404) (fun s => s) "now" "baseball_mlb"
      none none (by decide)

/-- C6: with a team filter, an event is retained exactly when the filter
appears case-insensitively as a substring of the home or away team name;
and when the retained set is empty the tool returns the
"no games found" report immediately, issuing zero per-event odds calls. -/
theorem team_filter_matching_and_short_circuit (tf : String) (events : List Event) :
    (∀ e : Event, e ∈ filterEvents (some tf) events ↔
        e ∈ events
          ∧ (containsSubstr (toLowerStr e.home_team) (toLowerStr tf) = true
              ∨ containsSubstr (toLowerStr e.away_team) (toLowerStr tf) = true))
      ∧ (filterEvents (some tf) events = [] →
          ∀ (propsResp : String → PropsFetchOutcome) (fmtDate : String → String)
            (now sport : String) (m : Option (List String)),
            fetch_player_props (FetchResult.ok events) propsResp fmtDate now sport
                m (some tf)
              = (Except.ok (propsHeader now sport (resolveMarkets sport m)
                    (some tf)
                  ++ ("No games found for team \"" ++ tf ++ "\" today.\n")), [])) := by
  constructor
  · intro e
    simp [filterEvents, eventMatches, List.mem_filter, Bool.or_eq_true]
  · intro h propsResp fmtDate now sport m
    simp [fetch_player_props, h, noGamesLine]

/-- C6 witness: filtering one Yankees-Red Sox event by "mets" retains
nothing, and the tool short-circuits with the filtered "no games found"
report and an empty list of per-event odds calls. -/
theorem team_filter_matching_and_short_circuit_witness :
    filterEvents (some "mets")
        [{ id := "evid1", home_team := "New York Yankees",
           away_team := "Boston Red Sox", commence_time := "T1" }] = []
      ∧ fetch_player_props
          (FetchResult.ok
            [{ id := "evid1", home_team := "New York Yankees",
               away_team := "Boston Red Sox", commence_time := "T1" }])
          (fun _ => PropsFetchOutcome.httpError 404) (fun s => s) "now"
          "baseball_mlb" none (some "mets")
        = (Except.ok (propsHeader "now" "baseball_mlb"
              (resolveMarkets "baseball_mlb" none) (some "mets")
            ++ ("No games found for team \"" ++ "mets" ++ "\" today.\n")), []) := by
  refine ⟨by decide, ?_⟩
  exact (team_filter_matching_and_short_circuit "mets"
      [{ id := "evid1", home_team := "New York Yankees",
         away_team := "Boston Red Sox", commence_time := "T1" }]).2 (by decide)
    (fun _ => PropsFetchOutcome.httpError 404) (fun s => s) "now" "baseball_mlb"
    none

/-- C7: the props pipeline issues per-event odds fetches for exactly the
first `min 3 n` filtered events in provider-returned order, and hence never
more than 3 of them, whatever the provider returns. -/
theorem props_fetches_capped_at_three
    (eventsResp : FetchResult (List Event)) (propsResp : String → PropsFetchOutcome)
    (fmtDate : String → String) (now sport : String) (m : Option (List String))
    (tf : Option String) :
    (fetch_player_props eventsResp propsResp fmtDate now sport m tf).2.length ≤ 3
      ∧ ∀ events : List Event,
          (fetch_player_props (FetchResult.ok events) propsResp fmtDate now sport
              m tf).2
            = ((filterEvents tf events).take 3).map Event.id := by
  constructor
  · cases eventsResp with
    | httpError s t => simp [fetch_player_props]
    | ok events =>
      by_cases h : (filterEvents tf events).isEmpty = true
      · simp [fetch_player_props, h]
      · simp only [fetch_player_props, h, if_false, Bool.false_eq_true]
        simp [List.length_take]
  · intro events
    by_cases h : (filterEvents tf events).isEmpty = true
    · have h0 : filterEvents tf events = [] := List.isEmpty_iff.mp h
      simp [fetch_player_props, h, h0]
    · simp [fetch_player_props, h]

/-- C8: a per-event failure is isolated: the tool result is the successful
report assembled from one block per processed event, each block a function
of that event's own fetch outcome alone — a non-2xx or thrown failure
renders as an inline error block for that game only, while every other
processed event's block is rendered from its fetched data. -/
theorem per_event_failure_isolation (events : List Event)
    (propsResp : String → PropsFetchOutcome) (fmtDate : String → String)
    (now sport : String) (m : Option (List String)) (tf : Option String)
    (hne : filterEvents tf events ≠ []) :
    (fetch_player_props (FetchResult.ok events) propsResp fmtDate now sport m tf).1
        = Except.ok (propsHeader now sport (resolveMarkets sport m) tf
            ++ "Processing "
            ++ toString ((filterEvents tf events).take 3).length ++ " games:\n\n"
            ++ String.join (((filterEvents tf events).take 3).map
                 (fun e => renderEventBlock fmtDate e (propsResp e.id))))
      ∧ (∀ (e : Event) (status : Nat),
          propsResp e.id = PropsFetchOutcome.httpError status →
          renderEventBlock fmtDate e (propsResp e.id)
            = "--- " ++ e.away_team ++ " @ " ++ e.home_team ++ " ---\n"
                ++ "Error: Unable to fetch props (" ++ toString status ++ ")\n\n")
      ∧ (∀ (e : Event) (msg : String),
          propsResp e.id = PropsFetchOutcome.thrown msg →
          renderEventBlock fmtDate e (propsResp e.id)
            = "--- " ++ e.away_team ++ " @ " ++ e.home_team ++ " ---\n"
                ++ "Error: " ++ msg ++ "\n\n")
      ∧ (∀ (e : Event) (d : PropsData),
          propsResp e.id = PropsFetchOutcome.ok d →
          renderEventBlock fmtDate e (propsResp e.id)
            = renderPropsGameBlock fmtDate e d) := by
  have h2 : (filterEvents tf events).isEmpty = false := by
    simp [List.isEmpty_iff, hne]
  refine ⟨?_, ?_, ?_, ?_⟩
  · simp [fetch_player_props, h2]
  · intro e status h
    rw [h]
    simp [renderEventBlock]
  · intro e msg h
    rw [h]
    simp [renderEventBlock]
  · intro e d h
    rw [h]
    simp [renderEventBlock]

/-- C8 witness: two retained events, the second answering 404: the tool
result is the assembled successful report, the failing event's block is the
inline 404 error block, and the succeeding event's block is rendered from
its data. -/
theorem per_event_failure_isolation_witness :
    filterEvents none [evOK, evBAD] ≠ []
      ∧ ((fetch_player_props (FetchResult.ok [evOK, evBAD]) mixedOracle
            (fun s => s) "now" "baseball_mlb" none none).1
          = Except.ok (propsHeader "now" "baseball_mlb"
              (resolveMarkets "baseball_mlb" none) none
              ++ "Processing "
              ++ toString ((filterEvents (none : Option String)
                    [evOK, evBAD]).take 3).length ++ " games:\n\n"
              ++ String.join (((filterEvents (none : Option String)
                    [evOK, evBAD]).take 3).map
                   (fun e => renderEventBlock (fun s => s) e (mixedOracle e.id))))
          ∧ (∀ (e : Event) (status : Nat),
              mixedOracle e.id = PropsFetchOutcome.httpError status →
              renderEventBlock (fun s => s) e (mixedOracle e.id)
                = "--- " ++ e.away_team ++ " @ " ++ e.home_team ++ " ---\n"
                    ++ "Error: Unable to fetch props (" ++ toString status
                    ++ ")\n\n")
          ∧ (∀ (e : Event) (msg : String),
              mixedOracle e.id = PropsFetchOutcome.thrown msg →
              renderEventBlock (fun s => s) e (mixedOracle e.id)
                = "--- " ++ e.away_team ++ " @ " ++ e.home_team ++ " ---\n"
                    ++ "Error: " ++ msg ++ "\n\n")
          ∧ (∀ (e : Event) (d : PropsData),
              mixedOracle e.id = PropsFetchOutcome.ok d →
              renderEventBlock (fun s => s) e (mixedOracle e.id)
                = renderPropsGameBlock (fun s => s) e d)) :=
  ⟨by decide,
   per_event_failure_isolation [evOK, evBAD] mixedOracle (fun s => s) "now"
     "baseball_mlb" none none (by decide)⟩


/-- C9: the program evaluated at the claim's failing input — a process
environment supplying no `ODDS_API_KEY` — does not fail fatally at startup:
`app.listen` runs unconditionally and the server comes up listening (on the
default port), because the provider key is a hardcoded literal rather than
read from configuration. -/
theorem startup_succeeds_without_api_key :
    startServer { oddsApiKeyVar := none, portVar := none }
        = StartupOutcome.listening 10000
      ∧ (∀ env : ProcessEnv,
          startServer env = StartupOutcome.listening (serverPort env))
      ∧ oddsApiKey = "e2589acbc9f5ed09664e15a3fd90682d" :=
  ⟨rfl, fun _ => rfl, rfl⟩

/-- C10: an outcome whose `point` is the number 0 renders, in both tools,
identically to an outcome with no point at all: the truthiness guard drops
the point segment, so the rendered line omits the point. -/
theorem zero_point_omitted (o : Outcome) (h : o.point = some 0) :
    renderOddsOutcome o = o.name ++ " (" ++ toString o.price ++ ")"
      ∧ renderOddsOutcome o = renderOddsOutcome { o with point := none }
      ∧ renderPropsOutcome o = renderPropsOutcome { o with point := none } := by
  refine ⟨?_, ?_, ?_⟩
  · simp [renderOddsOutcome, pointSuffix, h, String.append_empty]
  · simp [renderOddsOutcome, pointSuffix, h]
  · simp [renderPropsOutcome, pointSuffix, h]

/-- C10 witness: a zero total line at a concrete outcome. -/
theorem zero_point_omitted_witness :
    ({ name := "Over", description := some "Aaron Judge", price := 2,
       point := some 0 } : Outcome).point = some 0
      ∧ (renderOddsOutcome
            { name := "Over", description := some "Aaron Judge", price := 2,
              point := some 0 }
          = "Over" ++ " (" ++ toString (2 : Int) ++ ")"
        ∧ renderOddsOutcome
            { name := "Over", description := some "Aaron Judge", price := 2,
              point := some 0 }
          = renderOddsOutcome
              { name := "Over", description := some "Aaron Judge", price := 2,
                point := none }
        ∧ renderPropsOutcome
            { name := "Over", description := some "Aaron Judge", price := 2,
              point := some 0 }
          = renderPropsOutcome
              { name := "Over", description := some "Aaron Judge", price := 2,
                point := none }) :=
  ⟨rfl, zero_point_omitted
    { name := "Over", description := some "Aaron Judge", price := 2,
      point := some 0 } rfl⟩

end SportsOddsMcp
